import Mathlib

/-
Verification of the attendance-system synchronization engine.

The definitions below are a shallow embedding of the Python source:
  backend/app/tasks.py        (per-device fetch-and-forward pipeline, job pruning)
  backend/app/exporter.py     (batched exporter to the end database)
  backend/app/access_helpers.py (identity resolution)
  backend/app/scheduler.py    (export job worker and the global export lock)

Databases are modelled as lists of rows, Python dictionaries as association
lists, and external failure points (lock timeout, Access connection, commit
success) as explicit boolean inputs.  Python truthiness of optional strings
(None and "" are falsy) is modelled explicitly.
-/

namespace AttendanceSystem

/-- Truthiness of an optional string, mirroring Python where both None and
the empty string are falsy. -/
def truthyS : Option String → Bool
  | none => false
  | some s => !(s == "")

/-- Strip leading and trailing whitespace from a character list. -/
def stripChars (l : List Char) : List Char :=
  ((l.dropWhile Char.isWhitespace).reverse.dropWhile Char.isWhitespace).reverse

/-- Python str.strip(): remove surrounding whitespace.  Implemented over
the string's character list so that it reduces inside the kernel. -/
def pyStrip (s : String) : String :=
  ⟨stripChars s.data⟩

/-- Python str.lstrip("0"): remove leading zero characters. -/
def pyLstrip0 (s : String) : String :=
  ⟨s.data.dropWhile (fun c => c == '0')⟩

/-- Dictionary lookup returning "" for a missing key, mirroring Python
code that treats a missing key and an empty value alike via falsiness. -/
def lookupS (m : List (String × String)) (k : String) : String :=
  match m.lookup k with
  | some v => v
  | none => ""

/-! ## Fetch pipeline (backend/app/tasks.py, fetch_and_forward_for_device) -/

/-- Model of app.models.Device (the fields the fetcher reads). -/
structure DeviceR where
  id : Nat
  name : String
  serial_no : Option String
deriving DecidableEq

/-- One attendance record returned by the terminal (zk library record):
uid is the device-assigned record id, user_id the device-local badge string.
Timestamps are abstracted to Nat; status to its string form (tasks.py
computes status_str before use). -/
structure ZKRec where
  uid : Option Nat
  user_id : Option String
  timestamp : Nat
  status : String
deriving DecidableEq

/-- The slice of an AttendanceLog row written by the fetcher
(tasks.py lines 389-395); the unique constraint of models.py is on
(device_id, record_id). -/
structure FlaskEntry where
  device_id : Nat
  record_id : Nat
  user_id : Option String
  timestamp : Nat
  status : String
deriving DecidableEq

/-- A row staged for insertion into the Access CHECKINOUT replica
(tasks.py lines 480-489). -/
structure AccessTuple where
  USERID : String
  CHECKTIME : Nat
  CHECKTYPE : String
  VERIFYCODE : Nat
  SENSORID : String
  WorkCode : String
  sn : String
deriving DecidableEq

/-- Key identifying a record already present in Access
(fetch_existing_access_keys: (USERID, CHECKTIME, sn)). -/
abbrev AccKey := String × Nat × String

/-- Runtime configuration flags read in tasks.py lines 335-337.
autoCreateResult models the USERID obtained after AUTO_CREATE_USERINFO
inserts a USERINFO row for a badge; "" models a failed creation/refetch. -/
structure FetchCfg where
  autoCreate : Bool
  allowRaw : Bool
  autoCreateResult : String → String

/-- External outcomes of one poll: whether the directory lock timed out,
whether the Access DB opened, whether the Access bulk insert committed,
per-row fallback insert success, and whether the Flask bulk commit
succeeded. -/
structure FetchIn where
  lockTimeout : Bool
  accessOpenOk : Bool
  bulkOk : Bool
  rowOk : Nat → Bool
  flaskCommitOk : Bool

/-- Python: device.serial_no or device.name (empty/None serial falls back
to the name). -/
def devSn (d : DeviceR) : String :=
  match d.serial_no with
  | some s => if s = "" then d.name else s
  | none => d.name

/-- Python: str(rec.user_id).strip() if rec.user_id is not None else ""
(tasks.py line 411). -/
def badgeValue (r : ZKRec) : String :=
  match r.user_id with
  | some s => pyStrip s
  | none => ""

/-- The record ids already stored for this device
(tasks.py lines 310-311: query of AttendanceLog.record_id filtered by
device_id). -/
def existingRids (store : List FlaskEntry) (devId : Nat) : List Nat :=
  (store.filter (fun e => e.device_id == devId)).map (fun e => e.record_id)

/-- The column pair carrying the `_device_record_uc` unique constraint
of models.py (lines 117-119). -/
def flaskKey (e : FlaskEntry) : Nat × Nat :=
  (e.device_id, e.record_id)

/-- Outcome of the Access-side handling of one record inside the loop of
tasks.py lines 411-496: the record's key was already in CHECKINOUT, or a
tuple was queued (with the possibly extended badge map), or the badge was
unmapped. -/
inductive AccOut where
  | alreadyPresent : AccOut
  | queued : String → List (String × String) → AccOut
  | unmapped : String → AccOut

/-- Access-side decision for one record (tasks.py lines 410-496): map the
badge through USERINFO (with a leading-zero-stripped retry), compare the
key against the existing CHECKINOUT keys, and otherwise determine the
USERID to insert via the mapping, AUTO_CREATE_USERINFO, or
ALLOW_INSERT_RAW_BADGE; an empty result records the badge as unmapped. -/
def accessDecision (badgeMap : List (String × String)) (ea : List AccKey)
    (cfg : FetchCfg) (sn : String) (r : ZKRec) : AccOut :=
  let bv := badgeValue r
  let mapped : String :=
    if bv = "" then ""
    else
      let m1 := lookupS badgeMap bv
      if m1 = "" then
        let norm := pyStrip (pyLstrip0 bv)
        if norm = "" then "" else lookupS badgeMap norm
      else m1
  let keyUser := if mapped = "" then bv else mapped
  if (keyUser, r.timestamp, sn) ∈ ea then
    .alreadyPresent
  else
    let chosen : String × List (String × String) :=
      if mapped = "" then
        if cfg.autoCreate ∧ bv ≠ "" then
          let created := cfg.autoCreateResult bv
          if created = "" then ("", badgeMap) else (created, (bv, created) :: badgeMap)
        else if cfg.allowRaw ∧ bv ≠ "" then (bv, badgeMap)
        else ("", badgeMap)
      else (mapped, badgeMap)
    if chosen.1 = "" then .unmapped bv else .queued chosen.1 chosen.2

/-- Loop state while iterating the device's records
(tasks.py lines 313-318: flask_log_entries, access_insert_tuples,
unmapped_badges, the badge map, and new_count). -/
structure LoopSt where
  entries : List FlaskEntry
  tuples : List AccessTuple
  unmapped : List String
  badgeMap : List (String × String)
  new_count : Nat

/-- One iteration of the record loop (tasks.py lines 377-518): skip
records with no uid or whose record_id is already stored, otherwise stage
the AttendanceLog entry, run the Access-side decision, and count the
record as new. -/
def stepRec (device : DeviceR) (existing : List Nat) (ea : List AccKey)
    (cfg : FetchCfg) (st : LoopSt) (r : ZKRec) : LoopSt :=
  match r.uid with
  | none => st
  | some rid =>
    if rid ∈ existing then st
    else
      let entry : FlaskEntry :=
        { device_id := device.id, record_id := rid, user_id := r.user_id,
          timestamp := r.timestamp, status := r.status }
      match accessDecision st.badgeMap ea cfg (devSn device) r with
      | .alreadyPresent =>
          { st with entries := st.entries ++ [entry], new_count := st.new_count + 1 }
      | .queued u m =>
          { st with entries := st.entries ++ [entry],
                    tuples := st.tuples ++
                      [{ USERID := u, CHECKTIME := r.timestamp, CHECKTYPE := r.status,
                         VERIFYCODE := 1, SENSORID := "1", WorkCode := "FLASK",
                         sn := devSn device }],
                    badgeMap := m,
                    new_count := st.new_count + 1 }
      | .unmapped bv =>
          { st with entries := st.entries ++ [entry],
                    unmapped := if bv ∈ st.unmapped then st.unmapped else st.unmapped ++ [bv],
                    new_count := st.new_count + 1 }

/-- Rows actually committed to Access (tasks.py lines 533-630): the bulk
executemany commit takes all tuples; on bulk failure the per-row fallback
commits each row independently (rowOk i models row i committing rather
than being a duplicate or erroring). -/
def accessCommit (tuples : List AccessTuple) (bulkOk : Bool) (rowOk : Nat → Bool) :
    List AccessTuple :=
  if bulkOk then tuples
  else ((tuples.enum).filter (fun p => rowOk p.1)).map (fun p => p.2)

/-- The Flask commit (tasks.py lines 655-664): a single bulk_save_objects
plus commit; an IntegrityError from the `_device_record_uc` unique
constraint of models.py, or any other failure, rolls the whole batch back
leaving the store unchanged. -/
def commitFlask (store entries : List FlaskEntry) (ok : Bool) : List FlaskEntry :=
  if ok ∧ ((store ++ entries).map flaskKey).Nodup then store ++ entries else store

/-- Result of one per-device poll. -/
structure FetchResult where
  newStore : List FlaskEntry
  staged : List FlaskEntry
  tuples : List AccessTuple
  accessCommitted : List AccessTuple
  unmapped : List String
  new_count : Nat
  lockWarning : Bool
deriving DecidableEq

/-- Initial loop state: empty containers and the badge map read from
USERINFO (tasks.py lines 313-318, 352-372). -/
def loopInit (bm : List (String × String)) : LoopSt :=
  { entries := [], tuples := [], unmapped := [], badgeMap := bm, new_count := 0 }

/-- The whole record loop of tasks.py lines 377-518. -/
def runLoop (device : DeviceR) (existing : List Nat) (ea : List AccKey) (cfg : FetchCfg)
    (logs : List ZKRec) (bm : List (String × String)) : LoopSt :=
  logs.foldl (stepRec device existing ea cfg) (loopInit bm)

/-- The result of a poll whose lock acquisition timed out (tasks.py lines
644-653 followed by the Flask commit of the never-filled entry list):
store untouched, nothing staged or committed, warning emitted. -/
def lockTimeoutResult (store : List FlaskEntry) : FetchResult :=
  { newStore := store, staged := [], tuples := [], accessCommitted := [],
    unmapped := [], new_count := 0, lockWarning := true }

/-- The body of a poll that did acquire the lock (tasks.py lines 341-642
and the Flask commit at 655-664).  When the Access DB cannot be opened,
existing keys and the badge map are empty and nothing is committed to
Access, but tuples may still be staged (line 536 guards the insert on
access_conn, and AUTO_CREATE needs the connection too). -/
def bodyLoop (device : DeviceR) (logs : List ZKRec) (store : List FlaskEntry)
    (existing_access : List AccKey) (badgeMap : List (String × String))
    (cfg : FetchCfg) (io : FetchIn) : LoopSt :=
  runLoop device (existingRids store device.id)
    (if io.accessOpenOk then existing_access else [])
    (if io.accessOpenOk then cfg else { cfg with autoCreateResult := fun _ => "" })
    logs (if io.accessOpenOk then badgeMap else [])

/-- Packaging of the poll body's observable outcome (continuation of the
previous definition). -/
def fetchBody (device : DeviceR) (logs : List ZKRec) (store : List FlaskEntry)
    (existing_access : List AccKey) (badgeMap : List (String × String))
    (cfg : FetchCfg) (io : FetchIn) : FetchResult :=
  let st := bodyLoop device logs store existing_access badgeMap cfg io
  { newStore := commitFlask store st.entries io.flaskCommitOk,
    staged := st.entries,
    tuples := st.tuples,
    accessCommitted := if io.accessOpenOk then accessCommit st.tuples io.bulkOk io.rowOk
                       else [],
    unmapped := st.unmapped,
    new_count := st.new_count,
    lockWarning := false }

/-- The per-device poll (tasks.py fetch_and_forward_for_device).  When the
directory-lock acquisition times out, the entire with-block — including
the record loop that builds flask_log_entries — is skipped, the warning is
emitted, and the Flask commit then runs over the still-empty list (lines
339, 644-664). -/
def fetch_and_forward_for_device (device : DeviceR) (logs : List ZKRec)
    (store : List FlaskEntry) (existing_access : List AccKey)
    (badgeMap : List (String × String)) (cfg : FetchCfg) (io : FetchIn) :
    FetchResult :=
  if io.lockTimeout then lockTimeoutResult store
  else fetchBody device logs store existing_access badgeMap cfg io

/-! ### Concrete fixtures for the fetch pipeline -/

/-- A seeded device (serial "SN-A"). -/
def d0 : DeviceR := { id := 1, name := "K40-1", serial_no := some "SN-A" }

/-- One fresh attendance record (uid 1, badge "100"). -/
def r1 : ZKRec := { uid := some 1, user_id := some "100", timestamp := 900, status := "IN" }

/-- The AttendanceLog row that ingesting r1 on d0 produces. -/
def fe1 : FlaskEntry :=
  { device_id := 1, record_id := 1, user_id := some "100", timestamp := 900, status := "IN" }

/-- Default configuration: AUTO_CREATE_USERINFO and ALLOW_INSERT_RAW_BADGE
both off (tasks.py lines 335-337). -/
def cfg0 : FetchCfg := { autoCreate := false, allowRaw := false, autoCreateResult := fun _ => "" }

/-- Configuration with ALLOW_INSERT_RAW_BADGE enabled. -/
def cfgRaw : FetchCfg := { autoCreate := false, allowRaw := true, autoCreateResult := fun _ => "" }

/-- A fully healthy poll: lock acquired, Access open, all commits succeed. -/
def ioOk : FetchIn :=
  { lockTimeout := false, accessOpenOk := true, bulkOk := true,
    rowOk := fun _ => true, flaskCommitOk := true }

/-- A poll whose directory-lock acquisition times out. -/
def ioTimeout : FetchIn :=
  { lockTimeout := true, accessOpenOk := true, bulkOk := true,
    rowOk := fun _ => true, flaskCommitOk := true }

/-! ## Exporter (backend/app/exporter.py, export_attendance_direct) -/

/-- Wall-clock datetime, for the exporter's strftime formatting and the
10-minute subtraction. -/
structure DT where
  year : Nat
  month : Nat
  day : Nat
  hour : Nat
  minute : Nat
  second : Nat
deriving DecidableEq

/-- Gregorian leap-year rule, as used by Python's datetime arithmetic. -/
def isLeap (y : Nat) : Bool :=
  (y % 4 == 0 && y % 100 != 0) || (y % 400 == 0)

/-- Number of days in a month. -/
def daysInMonth (y m : Nat) : Nat :=
  if m = 2 then (if isLeap y then 29 else 28)
  else if m = 4 ∨ m = 6 ∨ m = 9 ∨ m = 11 then 30
  else 31

/-- rec.timestamp - timedelta(minutes=10) (exporter.py line 64), with the
borrows across hour, day, month and year boundaries that Python's datetime
arithmetic performs. -/
def subMinutes10 (t : DT) : DT :=
  if 10 ≤ t.minute then { t with minute := t.minute - 10 }
  else
    let m := t.minute + 60 - 10
    if 1 ≤ t.hour then { t with hour := t.hour - 1, minute := m }
    else if 2 ≤ t.day then { t with day := t.day - 1, hour := 23, minute := m }
    else if 2 ≤ t.month then
      { t with month := t.month - 1, day := daysInMonth t.year (t.month - 1),
               hour := 23, minute := m }
    else
      { year := t.year - 1, month := 12, day := 31, hour := 23, minute := m,
        second := t.second }

/-- Zero-pad a number to two digits (strftime %m, %d, %H, %M, %S). -/
def pad2 (n : Nat) : String :=
  if n < 10 then "0" ++ toString n else toString n

/-- Zero-pad a year to four digits (strftime %Y). -/
def pad4 (n : Nat) : String :=
  if n < 10 then "000" ++ toString n
  else if n < 100 then "00" ++ toString n
  else if n < 1000 then "0" ++ toString n
  else toString n

/-- strftime("%Y-%m-%d") (exporter.py line 65). -/
def fmtDate (t : DT) : String :=
  pad4 t.year ++ "-" ++ pad2 t.month ++ "-" ++ pad2 t.day

/-- strftime("%H:%M:%S") (exporter.py line 66). -/
def fmtTime (t : DT) : String :=
  pad2 t.hour ++ ":" ++ pad2 t.minute ++ ":" ++ pad2 t.second

/-- Order-embedding of a valid datetime into Nat, for the lookback cutoff
comparison. -/
def dtKey (t : DT) : Nat :=
  ((((t.year * 13 + t.month) * 32 + t.day) * 24 + t.hour) * 60 + t.minute) * 60 + t.second

/-- The slice of an AttendanceLog row read by the exporter: legacy user_id,
device_userid, timestamp, the joined device (for serial_no), device_id,
and the export-tracking fields. -/
structure SrcRow where
  id : Nat
  user_id : Option String
  device_userid : Option String
  timestamp : DT
  device : Option DeviceR
  device_id : Nat
  exported : Bool
  exported_at : Option Nat
deriving DecidableEq

/-- A row of the end-DB target table (columns of the INSERT in
exporter.py lines 44-48). -/
structure EndRow where
  log_date : String
  badge : String
  badge_dup : String
  placeholder : String
  log_time : String
  flag : String
  access_door : String
  batch : String
  access_device : String
deriving DecidableEq

/-- The four result counters of the exporter. -/
structure ExpCounters where
  exported : Nat
  skipped_existing : Nat
  skipped_empty_user : Nat
  errors : Nat
deriving DecidableEq

/-- State threaded through the exporter's row loop: the source table, the
end table, and the counters. -/
structure ExpState where
  src : List SrcRow
  endRows : List EndRow
  counters : ExpCounters
deriving DecidableEq

/-- Badge derivation (exporter.py lines 54-58): the legacy user_id is
tried FIRST (truthiness of the raw value), then device_userid; the chosen
value is stripped.  An all-whitespace user_id is truthy, so it is chosen
and strips to "", without consulting device_userid. -/
def rawUserOf (r : SrcRow) : String :=
  if truthyS r.user_id then pyStrip (r.user_id.getD "")
  else if truthyS r.device_userid then pyStrip (r.device_userid.getD "")
  else ""

/-- Device serial mapping (exporter.py lines 68-74): the joined device's
serial_no, falling back to str(device_id); with no joined device,
str(device_id or "") (Python renders device_id 0 as ""). -/
def serialNoOf (r : SrcRow) : String :=
  match r.device with
  | some d =>
    match d.serial_no with
    | some s => if s = "" then toString r.device_id else s
    | none => toString r.device_id
  | none => if r.device_id = 0 then "" else toString r.device_id

/-- The duplicate probe (exporter.py lines 38-41, 79-87): SELECT COUNT(1)
over (log_date, badge, log_time, access_device), reported as a hit when
positive. -/
def probeHit (rows : List EndRow) (d b t a : String) : Bool :=
  rows.any (fun e => e.log_date == d && e.badge == b && e.log_time == t && e.access_device == a)

/-- The probe for one source row, at the parameters the code computes for
it (exporter.py lines 63-86). -/
def probeOf (rows : List EndRow) (r : SrcRow) : Bool :=
  probeHit rows (fmtDate (subMinutes10 r.timestamp)) (rawUserOf r)
    (fmtTime (subMinutes10 r.timestamp)) ("ZKT-FLASK-" ++ serialNoOf r)

/-- The end-DB row inserted for a source row (exporter.py lines 44-48,
103-109): badge duplicated into badge_dup, placeholder and batch empty,
flag "0". -/
def mkEndRowOf (r : SrcRow) : EndRow :=
  { log_date := fmtDate (subMinutes10 r.timestamp),
    badge := rawUserOf r,
    badge_dup := rawUserOf r,
    placeholder := "",
    log_time := fmtTime (subMinutes10 r.timestamp),
    flag := "0",
    access_door := serialNoOf r,
    batch := "",
    access_device := "ZKT-FLASK-" ++ serialNoOf r }

/-- Mark the source row with the given id exported (exporter.py lines
89-94 and 112-117: rec.exported = True, rec.exported_at = utcnow,
committed per row). -/
def markExported (now : Nat) (rid : Nat) (src : List SrcRow) : List SrcRow :=
  src.map (fun s => if s.id = rid then { s with exported := true, exported_at := some now } else s)

/-- One iteration of the exporter's row loop (exporter.py lines 51-123).
fails models the per-row try/except: a failing row only increments
errors.  Otherwise: empty badge skips the row; a duplicate-probe hit
marks the source row exported and skips; dry_run only counts; else the
row is inserted and the source row marked exported. -/
def expStep (dry : Bool) (now : Nat) (fails : Nat → Bool) (st : ExpState) (r : SrcRow) :
    ExpState :=
  if fails r.id then
    { st with counters := { st.counters with errors := st.counters.errors + 1 } }
  else if rawUserOf r = "" then
    { st with counters :=
        { st.counters with skipped_empty_user := st.counters.skipped_empty_user + 1 } }
  else if probeOf st.endRows r then
    { st with src := markExported now r.id st.src,
              counters :=
                { st.counters with skipped_existing := st.counters.skipped_existing + 1 } }
  else if dry then
    { st with counters := { st.counters with exported := st.counters.exported + 1 } }
  else
    { st with endRows := st.endRows ++ [mkEndRowOf r],
              src := markExported now r.id st.src,
              counters := { st.counters with exported := st.counters.exported + 1 } }

/-- The batch query (exporter.py lines 21-29): AttendanceLog ordered by id
(the list is kept in id order), filtered by exported=False, optionally by
the lookback cutoff, limited to the batch size. -/
def selectRows (src : List SrcRow) (batch : Nat) (cutoff : Option DT) : List SrcRow :=
  let q : List SrcRow := src.filter (fun r => r.exported == false)
  let q2 : List SrcRow := match cutoff with
    | some c => q.filter (fun r => decide (dtKey c ≤ dtKey r.timestamp))
    | none => q
  q2.take batch

/-- The zero counter record returned when the query selects nothing. -/
def zeroCounters : ExpCounters :=
  { exported := 0, skipped_existing := 0, skipped_empty_user := 0, errors := 0 }

/-- The exporter run (exporter.py export_attendance_direct): select the
batch, return zero counters when empty (line 30-31), else process each
row in order within one end-DB transaction. -/
def export_attendance_direct (src : List SrcRow) (endRows : List EndRow)
    (batch : Nat) (cutoff : Option DT) (dry : Bool) (now : Nat) (fails : Nat → Bool) :
    ExpState :=
  let rows := selectRows src batch cutoff
  if rows = [] then { src := src, endRows := endRows, counters := zeroCounters }
  else rows.foldl (expStep dry now fails) { src := src, endRows := endRows, counters := zeroCounters }

/-! ## Identity resolution (backend/app/access_helpers.py) -/

/-- Model of app.models.AccessUserInfo (the replica roster row, called
DeviceUserRef in the spec).  Badgenumber is non-nullable in models.py; the
code additionally guards on its truthiness. -/
structure AccessUserInfoR where
  USERID : String
  Badgenumber : String
  sn : Option String
deriving DecidableEq

/-- Model of app.models.Badge (fields used by resolution). -/
structure BadgeR where
  id : Nat
  user_id : Nat
  badge_number : String
deriving DecidableEq

/-- access_helpers.get_badge_by_badgenumber (lines 8-11): falsy input
gives None, otherwise a lookup by badge_number.  one_or_none is modelled
as first match. -/
def get_badge_by_badgenumber (badges : List BadgeR) (badgenumber : String) : Option BadgeR :=
  if badgenumber = "" then none
  else badges.find? (fun b => b.badge_number == badgenumber)

/-- access_helpers.get_badge_for_device_userid (lines 13-30).  When a
roster row with a truthy Badgenumber is found (by (USERID, sn) first, or
by USERID alone), the function RETURNS the Badge lookup of that
Badgenumber — even when that lookup is None; only when no such roster row
exists does it fall through to the direct Badge lookup by the userid. -/
def get_badge_for_device_userid (refs : List AccessUserInfoR) (badges : List BadgeR)
    (userid : Option String) (sn : Option String) : Option BadgeR :=
  match userid with
  | none => none
  | some userid_s =>
    if userid_s = "" then none
    else
      let step23 : Option BadgeR :=
        match refs.find? (fun ai => ai.USERID == userid_s) with
        | some ai =>
          if ai.Badgenumber ≠ "" then get_badge_by_badgenumber badges ai.Badgenumber
          else badges.find? (fun b => b.badge_number == userid_s)
        | none => badges.find? (fun b => b.badge_number == userid_s)
      match sn with
      | some snv =>
        if snv = "" then step23
        else
          match refs.find? (fun ai => ai.USERID == userid_s && ai.sn == some snv) with
          | some ai =>
            if ai.Badgenumber ≠ "" then get_badge_by_badgenumber badges ai.Badgenumber
            else step23
          | none => step23
      | none => step23

/-! ## Export job worker and export lock (backend/app/scheduler.py) -/

/-- Observable outcome of one export job worker. -/
structure ExportWorkerRes where
  invokedExporter : Bool
  status : String
  error : Option String
  lockHeldAfter : Bool
deriving DecidableEq

/-- The worker body of start_export_job (scheduler.py lines 114-154) at
the granularity of the export lock: a non-blocking acquire of the global
_EXPORT_LOCK; when the lock is already held the worker raises "Export
already running" before ever importing or invoking the exporter, and the
except block marks the job failed carrying that error.  Otherwise the
exporter runs with the lock held and the lock is released in the finally
block; exporterOk models whether the exporter itself raised. -/
def export_job_worker (lockHeld : Bool) (exporterOk : Bool) (exporterErr : String) :
    ExportWorkerRes :=
  if lockHeld then
    { invokedExporter := false, status := "failed",
      error := some "Export already running", lockHeldAfter := lockHeld }
  else if exporterOk then
    { invokedExporter := true, status := "finished", error := none, lockHeldAfter := false }
  else
    { invokedExporter := true, status := "failed", error := some exporterErr,
      lockHeldAfter := false }

/-! ## Job pruning (backend/app/tasks.py, prune_old_jobs) -/

/-- A job-registry record as seen by prune_old_jobs: only the two
timestamps matter; they are modelled already parsed (a record whose
timestamp fails to parse is kept by the code and is outside this model). -/
structure JobRec9 where
  job_id : Nat
  started_at : Option Int
  finished_at : Option Int
deriving DecidableEq

/-- tasks.py line 55: ts_str = job.get('finished_at') or job.get('started_at'). -/
def effTs (j : JobRec9) : Option Int :=
  match j.finished_at with
  | some t => some t
  | none => j.started_at

/-- tasks.py prune_old_jobs (lines 50-64): a record is deleted when its
effective timestamp (finished_at, falling back to started_at) is strictly
older than now - ttl; records with neither timestamp are kept. -/
def prune_old_jobs (now ttl : Int) (reg : List JobRec9) : List JobRec9 :=
  reg.filter (fun j =>
    match effTs j with
    | none => true
    | some ts => if ts < now - ttl then false else true)

/-! ## Definitions written from the spec's words, for comparison with the
code-derived definitions above -/

/-- Modelled from the spec/claim wording for C5: derive badge as the
event's device_userid, falling back to the legacy user_id only when
device_userid is absent. -/
def spec_badge_device_userid_first (r : SrcRow) : String :=
  if truthyS r.device_userid then pyStrip (r.device_userid.getD "")
  else if truthyS r.user_id then pyStrip (r.user_id.getD "")
  else ""

/-- Modelled from the spec/claim wording for C7: resolution FALLS THROUGH
to the later steps when an earlier step finds a roster row whose
badge_number has no matching Badge. -/
def spec_resolve_with_fallthrough (refs : List AccessUserInfoR) (badges : List BadgeR)
    (userid : Option String) (sn : Option String) : Option BadgeR :=
  match userid with
  | none => none
  | some userid_s =>
    if userid_s = "" then none
    else
      let step1 : Option BadgeR :=
        match sn with
        | some snv =>
          if snv = "" then none
          else
            match refs.find? (fun ai => ai.USERID == userid_s && ai.sn == some snv) with
            | some ai => get_badge_by_badgenumber badges ai.Badgenumber
            | none => none
        | none => none
      match step1 with
      | some b => some b
      | none =>
        let step2 : Option BadgeR :=
          match refs.find? (fun ai => ai.USERID == userid_s) with
          | some ai => get_badge_by_badgenumber badges ai.Badgenumber
          | none => none
        match step2 with
        | some b => some b
        | none => badges.find? (fun b => b.badge_number == userid_s)

/-- Modelled from the claim wording for C9: only a terminal (finished_at)
timestamp counts; a record without one always remains. -/
def spec_prune_jobs (now ttl : Int) (reg : List JobRec9) : List JobRec9 :=
  reg.filter (fun j =>
    match j.finished_at with
    | none => true
    | some ts => if ts < now - ttl then false else true)

/-- Result of committing one roster-resolution step, for the amended C7
statement: none means the step did not find an applicable roster row (and
resolution moves on), some res means the step found one and resolution
ends with res (which may itself be none). -/
def resolveRosterCommit (refs : List AccessUserInfoR) (badges : List BadgeR)
    (p : AccessUserInfoR → Bool) : Option (Option BadgeR) :=
  match refs.find? p with
  | some ai =>
    if ai.Badgenumber ≠ "" then some (get_badge_by_badgenumber badges ai.Badgenumber)
    else none
  | none => none

/-- The amended C7 resolution: a roster row with a truthy Badgenumber
commits the resolution to the Badge lookup of that Badgenumber (possibly
null), with no fall-through to later steps. -/
def amended_resolve (refs : List AccessUserInfoR) (badges : List BadgeR)
    (userid : Option String) (sn : Option String) : Option BadgeR :=
  match userid with
  | none => none
  | some userid_s =>
    if userid_s = "" then none
    else
      let s1 : Option (Option BadgeR) :=
        match sn with
        | some snv =>
          if snv = "" then none
          else resolveRosterCommit refs badges
            (fun ai => ai.USERID == userid_s && ai.sn == some snv)
        | none => none
      match s1 with
      | some res => res
      | none =>
        match resolveRosterCommit refs badges (fun ai => ai.USERID == userid_s) with
        | some res => res
        | none => badges.find? (fun b => b.badge_number == userid_s)

/-! ## Remaining concrete fixtures -/

/-- The timestamp of scenario 1 of the spec: 2025-01-10T09:00:00. -/
def dtEx : DT := { year := 2025, month := 1, day := 10, hour := 9, minute := 0, second := 0 }

/-- A source row with both identifiers present: legacy user_id "B" and
device_userid "A". -/
def r5Ex : SrcRow :=
  { id := 7, user_id := some "B", device_userid := some "A", timestamp := dtEx,
    device := some d0, device_id := 1, exported := false, exported_at := none }

/-- A source row already exported. -/
def rExported : SrcRow :=
  { id := 8, user_id := some "C", device_userid := none, timestamp := dtEx,
    device := some d0, device_id := 1, exported := true, exported_at := some 5 }

/-- Roster fixture for C7: device user "5" on serial "S" bound to badge
number "B9", which has no Badge row. -/
def refsEx : List AccessUserInfoR := [{ USERID := "5", Badgenumber := "B9", sn := some "S" }]

/-- Badge fixture for C7: the only badge has badge_number "5". -/
def badgesEx : List BadgeR := [{ id := 1, user_id := 1, badge_number := "5" }]

/-- A still-running job record: started at time 0, not finished. -/
def j9Ex : JobRec9 := { job_id := 1, started_at := some 0, finished_at := none }

/-- Sum of the exporter's four counters. -/
def csum (c : ExpCounters) : Nat :=
  c.exported + c.skipped_existing + c.skipped_empty_user + c.errors

/-- Failure injection that never fires (every row processes normally). -/
def fails0 : Nat → Bool := fun _ => false

/-- An exporter state holding one pending source row and an empty end
table. -/
def st5Ex : ExpState := { src := [r5Ex], endRows := [], counters := zeroCounters }

/-- The replica tuple staged for r1 on d0 when raw-badge insertion is
enabled. -/
def tupEx : AccessTuple :=
  { USERID := "100", CHECKTIME := 900, CHECKTYPE := "IN", VERIFYCODE := 1,
    SENSORID := "1", WorkCode := "FLASK", sn := "SN-A" }

/-! ## Theorems -/

/-- Each element of an enumFrom pairs an index with an element of the
underlying list. -/
theorem snd_mem_of_mem_enumFrom {α : Type} (l : List α) :
    ∀ (n : Nat) (p : Nat × α), p ∈ l.enumFrom n → p.2 ∈ l := by
  induction l with
  | nil => intro n p h; cases h
  | cons a as ih =>
    intro n p h
    simp only [List.enumFrom] at h
    rcases List.mem_cons.mp h with h | h
    · subst h; exact List.mem_cons_self _ _
    · exact List.mem_cons_of_mem _ (ih (n + 1) p h)

/-- Every row committed to Access was among the staged tuples, whether by
the bulk commit or by the per-row fallback. -/
theorem accessCommit_mem (tuples : List AccessTuple) (bulkOk : Bool) (rowOk : Nat → Bool) :
    ∀ t ∈ accessCommit tuples bulkOk rowOk, t ∈ tuples := by
  intro t ht
  unfold accessCommit at ht
  split at ht
  · exact ht
  · simp only [List.mem_map] at ht
    obtain ⟨p, hp, hpt⟩ := ht
    have hp2 : p ∈ tuples.enum := List.mem_of_mem_filter hp
    have : p.2 ∈ tuples := snd_mem_of_mem_enumFrom tuples 0 p (by simpa [List.enum] using hp2)
    simpa [hpt] using this

/-- One loop iteration either leaves the staged AttendanceLog entries
unchanged (no uid, or already stored) or appends exactly the entry built
from the record. -/
theorem stepRec_entries (device : DeviceR) (existing : List Nat) (ea : List AccKey)
    (cfg : FetchCfg) (st : LoopSt) (r : ZKRec) :
    (stepRec device existing ea cfg st r).entries = st.entries ∨
      ∃ rid, r.uid = some rid ∧ rid ∉ existing ∧
        (stepRec device existing ea cfg st r).entries
          = st.entries ++ [{ device_id := device.id, record_id := rid, user_id := r.user_id,
                             timestamp := r.timestamp, status := r.status }] := by
  unfold stepRec
  cases hu : r.uid with
  | none => exact Or.inl rfl
  | some rid =>
    by_cases hm : rid ∈ existing
    · simp [if_pos hm]
    · refine Or.inr ⟨rid, rfl, hm, ?_⟩
      simp only [if_neg hm]
      cases accessDecision st.badgeMap ea cfg (devSn device) r <;> rfl

/-- Shape of the staged entries after the whole record loop: the initial
entries followed by a tail of entries, each built from some record of the
batch whose record_id was not yet stored. -/
theorem foldl_entries_shape (device : DeviceR) (existing : List Nat) (ea : List AccKey)
    (cfg : FetchCfg) :
    ∀ (logs : List ZKRec) (st : LoopSt),
      ∃ tail, (logs.foldl (stepRec device existing ea cfg) st).entries = st.entries ++ tail ∧
        ∀ e ∈ tail, e.device_id = device.id ∧ e.record_id ∉ existing ∧
          ∃ r ∈ logs, r.uid = some e.record_id ∧ e.user_id = r.user_id ∧
            e.timestamp = r.timestamp ∧ e.status = r.status := by
  intro logs
  induction logs with
  | nil =>
    intro st
    exact ⟨[], by simp, by simp⟩
  | cons a as ih =>
    intro st
    obtain ⟨tail, htail, hall⟩ := ih (stepRec device existing ea cfg st a)
    rcases stepRec_entries device existing ea cfg st a with h | ⟨rid, hu, hm, h⟩
    · refine ⟨tail, ?_, ?_⟩
      · rw [List.foldl_cons, htail, h]
      · intro e he
        obtain ⟨hd, hm2, r, hr, hrest⟩ := hall e he
        exact ⟨hd, hm2, r, List.mem_cons_of_mem _ hr, hrest⟩
    · refine ⟨{ device_id := device.id, record_id := rid, user_id := a.user_id,
                timestamp := a.timestamp, status := a.status } :: tail, ?_, ?_⟩
      · rw [List.foldl_cons, htail, h, List.append_assoc]
        rfl
      · intro e he
        rcases List.mem_cons.mp he with he | he
        · subst he
          exact ⟨rfl, hm, a, List.mem_cons_self _ _, hu, rfl, rfl, rfl⟩
        · obtain ⟨hd, hm2, r, hr, hrest⟩ := hall e he
          exact ⟨hd, hm2, r, List.mem_cons_of_mem _ hr, hrest⟩

/-- A poll whose lock acquisition timed out produces the timeout result. -/
theorem fetch_eq_timeout (device : DeviceR) (logs : List ZKRec) (store : List FlaskEntry)
    (ea : List AccKey) (bm : List (String × String)) (cfg : FetchCfg) (io : FetchIn)
    (h : io.lockTimeout = true) :
    fetch_and_forward_for_device device logs store ea bm cfg io = lockTimeoutResult store := by
  simp [fetch_and_forward_for_device, h]

/-- A poll that acquired the lock runs the body. -/
theorem fetch_eq_body (device : DeviceR) (logs : List ZKRec) (store : List FlaskEntry)
    (ea : List AccKey) (bm : List (String × String)) (cfg : FetchCfg) (io : FetchIn)
    (h : io.lockTimeout = false) :
    fetch_and_forward_for_device device logs store ea bm cfg io
      = fetchBody device logs store ea bm cfg io := by
  simp [fetch_and_forward_for_device, h]

/-- The staged entries of the body are the loop's entries. -/
theorem fetchBody_staged (device : DeviceR) (logs : List ZKRec) (store : List FlaskEntry)
    (ea : List AccKey) (bm : List (String × String)) (cfg : FetchCfg) (io : FetchIn) :
    (fetchBody device logs store ea bm cfg io).staged
      = (bodyLoop device logs store ea bm cfg io).entries := rfl

/-- The body's resulting store is the Flask commit of the loop's entries. -/
theorem fetchBody_newStore (device : DeviceR) (logs : List ZKRec) (store : List FlaskEntry)
    (ea : List AccKey) (bm : List (String × String)) (cfg : FetchCfg) (io : FetchIn) :
    (fetchBody device logs store ea bm cfg io).newStore
      = commitFlask store (bodyLoop device logs store ea bm cfg io).entries
          io.flaskCommitOk := rfl

/-- The body's staged tuples are the loop's tuples. -/
theorem fetchBody_tuples (device : DeviceR) (logs : List ZKRec) (store : List FlaskEntry)
    (ea : List AccKey) (bm : List (String × String)) (cfg : FetchCfg) (io : FetchIn) :
    (fetchBody device logs store ea bm cfg io).tuples
      = (bodyLoop device logs store ea bm cfg io).tuples := rfl

/-- The body's Access-committed rows come from accessCommit when the
Access DB opened, and are empty otherwise. -/
theorem fetchBody_accessCommitted (device : DeviceR) (logs : List ZKRec)
    (store : List FlaskEntry) (ea : List AccKey) (bm : List (String × String))
    (cfg : FetchCfg) (io : FetchIn) :
    (fetchBody device logs store ea bm cfg io).accessCommitted
      = (if io.accessOpenOk then
          accessCommit (bodyLoop device logs store ea bm cfg io).tuples io.bulkOk io.rowOk
        else []) := rfl

/-- Claim C1.  The spec (and the code's own comment "we will bulk save
later regardless of Access outcome") promises that a lock timeout only
degrades the Access/replica side while the event store still receives the
device's new events.  The code stages flask_log_entries inside the lock's
with-block, so a timeout skips staging entirely: with one new record and
an empty store, a timed-out poll commits nothing and counts nothing (only
the warning is emitted), while the identical healthy poll commits one
AttendanceLog row. -/
theorem C1_lock_timeout_drops_new_events :
    (fetch_and_forward_for_device d0 [r1] [] [] [] cfg0 ioTimeout).newStore = [] ∧
    (fetch_and_forward_for_device d0 [r1] [] [] [] cfg0 ioTimeout).new_count = 0 ∧
    (fetch_and_forward_for_device d0 [r1] [] [] [] cfg0 ioTimeout).lockWarning = true ∧
    (fetch_and_forward_for_device d0 [r1] [] [] [] cfg0 ioOk).newStore = [fe1] := by
  decide

/-- Claim C2, counterexample.  A healthy poll (no lock timeout, Access
open, every commit succeeds) of one record whose badge has no USERINFO
mapping, with AUTO_CREATE_USERINFO and ALLOW_INSERT_RAW_BADGE off, commits
one AttendanceLog row and zero replica rows: the two stores are not
committed together and partial state exists. -/
theorem C2_counterexample :
    ¬ ((fetch_and_forward_for_device d0 [r1] [] [] [] cfg0 ioOk).newStore.length
        = (fetch_and_forward_for_device d0 [r1] [] [] [] cfg0 ioOk).accessCommitted.length) := by
  decide

/-- Claim C2, amended.  The two stores are written by two SEPARATE
transactions, not one: the staged AttendanceLog rows are committed
atomically within the event store alone (all of them, or none on
failure), every row committed to Access was among the staged replica
tuples, and an event whose badge is unmapped (no USERINFO mapping, auto
creation and raw-badge insertion off) yields a committed AttendanceLog
row with no replica row, as the healthy concrete run shows. -/
theorem C2_two_transactions (device : DeviceR) (logs : List ZKRec) (store : List FlaskEntry)
    (ea : List AccKey) (bm : List (String × String)) (cfg : FetchCfg) (io : FetchIn) :
    ((fetch_and_forward_for_device device logs store ea bm cfg io).newStore
        = store ++ (fetch_and_forward_for_device device logs store ea bm cfg io).staged
      ∨ (fetch_and_forward_for_device device logs store ea bm cfg io).newStore = store) ∧
    (∀ t ∈ (fetch_and_forward_for_device device logs store ea bm cfg io).accessCommitted,
        t ∈ (fetch_and_forward_for_device device logs store ea bm cfg io).tuples) ∧
    ((fetch_and_forward_for_device d0 [r1] [] [] [] cfg0 ioOk).staged.length = 1 ∧
      (fetch_and_forward_for_device d0 [r1] [] [] [] cfg0 ioOk).accessCommitted = []) := by
  refine ⟨?_, ?_, by decide⟩
  · cases hlt : io.lockTimeout with
    | true =>
      rw [fetch_eq_timeout device logs store ea bm cfg io hlt]
      exact Or.inr rfl
    | false =>
      rw [fetch_eq_body device logs store ea bm cfg io hlt,
        fetchBody_newStore, fetchBody_staged]
      unfold commitFlask
      split
      · exact Or.inl rfl
      · exact Or.inr rfl
  · cases hlt : io.lockTimeout with
    | true =>
      rw [fetch_eq_timeout device logs store ea bm cfg io hlt]
      intro t ht
      cases ht
    | false =>
      rw [fetch_eq_body device logs store ea bm cfg io hlt,
        fetchBody_accessCommitted, fetchBody_tuples]
      cases hao : io.accessOpenOk with
      | true =>
        rw [if_pos rfl]
        exact accessCommit_mem _ _ _
      | false =>
        rw [if_neg (by simp)]
        intro t ht
        cases ht

/-- Claim C4.  The unique constraint on (device_id, record_id) is
preserved by every poll (a violating bulk commit is rolled back whole);
when the device returns only records whose record_id is already stored
for it, nothing is staged and the store is unchanged; and every staged
entry belongs to this device and carries a record_id that was not yet
stored. -/
theorem C4_event_uniqueness (device : DeviceR) (logs : List ZKRec) (store : List FlaskEntry)
    (ea : List AccKey) (bm : List (String × String)) (cfg : FetchCfg) (io : FetchIn) :
    (((store.map flaskKey).Nodup →
        ((fetch_and_forward_for_device device logs store ea bm cfg io).newStore.map
          flaskKey).Nodup) ∧
    ((∀ r ∈ logs, ∀ rid, r.uid = some rid → rid ∈ existingRids store device.id) →
        (fetch_and_forward_for_device device logs store ea bm cfg io).staged = [] ∧
        (fetch_and_forward_for_device device logs store ea bm cfg io).newStore = store) ∧
    (∀ e ∈ (fetch_and_forward_for_device device logs store ea bm cfg io).staged,
        e.device_id = device.id ∧ e.record_id ∉ existingRids store device.id)) := by
  have hloop : ∃ tail, (bodyLoop device logs store ea bm cfg io).entries = tail ∧
      ∀ e ∈ tail, e.device_id = device.id ∧ e.record_id ∉ existingRids store device.id ∧
        ∃ r ∈ logs, r.uid = some e.record_id ∧ e.user_id = r.user_id ∧
          e.timestamp = r.timestamp ∧ e.status = r.status := by
    obtain ⟨tail, htail, htall⟩ :=
      foldl_entries_shape device (existingRids store device.id)
        (if io.accessOpenOk then ea else [])
        (if io.accessOpenOk then cfg else { cfg with autoCreateResult := fun _ => "" })
        logs (loopInit (if io.accessOpenOk then bm else []))
    refine ⟨tail, ?_, htall⟩
    unfold bodyLoop runLoop
    rw [htail]
    simp [loopInit]
  obtain ⟨tail, htail, htall⟩ := hloop
  refine ⟨?_, ?_, ?_⟩
  · intro hnd
    cases hlt : io.lockTimeout with
    | true =>
      rw [fetch_eq_timeout device logs store ea bm cfg io hlt]
      exact hnd
    | false =>
      rw [fetch_eq_body device logs store ea bm cfg io hlt, fetchBody_newStore]
      unfold commitFlask
      split
      · next h => exact h.2
      · exact hnd
  · intro hall
    have htnil : tail = [] := by
      rcases tail with _ | ⟨e, tail2⟩
      · rfl
      · obtain ⟨_, hm2, r, hr, hu, _⟩ := htall e (List.mem_cons_self _ _)
        exact absurd (hall r hr e.record_id hu) hm2
    cases hlt : io.lockTimeout with
    | true =>
      rw [fetch_eq_timeout device logs store ea bm cfg io hlt]
      exact ⟨rfl, rfl⟩
    | false =>
      rw [fetch_eq_body device logs store ea bm cfg io hlt, fetchBody_newStore,
        fetchBody_staged, htail, htnil]
      refine ⟨rfl, ?_⟩
      unfold commitFlask
      split <;> simp
  · intro e he
    cases hlt : io.lockTimeout with
    | true =>
      rw [fetch_eq_timeout device logs store ea bm cfg io hlt] at he
      cases he
    | false =>
      rw [fetch_eq_body device logs store ea bm cfg io hlt, fetchBody_staged, htail] at he
      obtain ⟨hd, hm2, _⟩ := htall e he
      exact ⟨hd, hm2⟩

/-- Claim C5, counterexample.  On a row carrying both identifiers
(user_id "B", device_userid "A") the code derives badge "B": user_id is
tried first, not device_userid as the claim states. -/
theorem C5_counterexample :
    rawUserOf r5Ex = "B" ∧ spec_badge_device_userid_first r5Ex = "A" ∧
    rawUserOf r5Ex ≠ spec_badge_device_userid_first r5Ex := by
  decide

/-- Claim C7, counterexample.  With a roster row binding userid "5" on
serial "S" to badge_number "B9" that has no Badge row, and a Badge whose
badge_number is "5", the code resolves (some "5", some "S") to none,
whereas the claimed fall-through resolution reaches step 3 and returns
the Badge "5". -/
theorem C7_counterexample :
    get_badge_for_device_userid refsEx badgesEx (some "5") (some "S") = none ∧
    spec_resolve_with_fallthrough refsEx badgesEx (some "5") (some "S")
      = some { id := 1, user_id := 1, badge_number := "5" } := by
  decide

/-- Claim C9, counterexample.  A still-running job (started_at 0, no
finished_at) is removed by prune_old_jobs at now = 100, ttl = 10, whereas
the claimed terminal-timestamp-only rule keeps it. -/
theorem C9_counterexample :
    prune_old_jobs 100 10 [j9Ex] = [] ∧ spec_prune_jobs 100 10 [j9Ex] = [j9Ex] := by
  decide

/-- Claim C8.  When the global export lock is already held, the second
export job's worker fails fast: the non-blocking acquire fails, the
exporter is never invoked, and the job record transitions to failed
carrying the "Export already running" error; when the lock is free the
worker runs the exporter, releases the lock, and finishes. -/
theorem C8_export_lock_fail_fast (exporterOk : Bool) (exporterErr : String) :
    (export_job_worker true exporterOk exporterErr).invokedExporter = false ∧
    (export_job_worker true exporterOk exporterErr).status = "failed" ∧
    (export_job_worker true exporterOk exporterErr).error = some "Export already running" ∧
    (export_job_worker false true exporterErr).invokedExporter = true ∧
    (export_job_worker false true exporterErr).status = "finished" ∧
    (export_job_worker false true exporterErr).lockHeldAfter = false := by
  simp [export_job_worker]

/-- Claim C9, amended.  prune_old_jobs removes exactly the records whose
effective timestamp — finished_at, falling back to started_at when
finished_at is absent — is strictly older than now - ttl; records with
neither timestamp always remain. -/
theorem C9_prune_effective_timestamp (now ttl : Int) (reg : List JobRec9) (j : JobRec9) :
    j ∈ prune_old_jobs now ttl reg
      ↔ j ∈ reg ∧ ∀ ts, effTs j = some ts → now - ttl ≤ ts := by
  simp only [prune_old_jobs, List.mem_filter]
  cases h : effTs j with
  | none => simp [h]
  | some ts =>
    by_cases hlt : ts < now - ttl
    · simp [h, hlt]
      omega
    · simp [h, hlt]
      omega

/-- One exporter step either leaves the end table unchanged, or appends
exactly the row built from the source record — the latter exactly when
the row did not fail, had a non-empty badge, missed the duplicate probe,
and the run is not a dry run. -/
theorem expStep_endRows (dry : Bool) (now : Nat) (fails : Nat → Bool) (st : ExpState)
    (r : SrcRow) :
    (expStep dry now fails st r).endRows = st.endRows ∨
      ((expStep dry now fails st r).endRows = st.endRows ++ [mkEndRowOf r] ∧
        fails r.id = false ∧ rawUserOf r ≠ "" ∧ probeOf st.endRows r = false ∧
        dry = false) := by
  by_cases h1 : fails r.id = true
  · exact Or.inl (by simp [expStep, h1])
  · by_cases h2 : rawUserOf r = ""
    · exact Or.inl (by simp [expStep, h1, h2])
    · by_cases h3 : probeOf st.endRows r = true
      · exact Or.inl (by simp [expStep, h1, h2, h3])
      · cases h4 : dry with
        | true => exact Or.inl (by simp [expStep, h1, h2, h3, h4])
        | false =>
          refine Or.inr ⟨by simp [expStep, h1, h2, h3, h4], by simpa using h1, h2,
            by simpa using h3, rfl⟩

/-- Over a whole batch, the end table only grows, by rows built from
members of the batch. -/
theorem foldl_endRows_shape (dry : Bool) (now : Nat) (fails : Nat → Bool) :
    ∀ (rows : List SrcRow) (st : ExpState),
      ∃ tail, (rows.foldl (expStep dry now fails) st).endRows = st.endRows ++ tail ∧
        ∀ e ∈ tail, ∃ r ∈ rows, e = mkEndRowOf r := by
  intro rows
  induction rows with
  | nil => intro st; exact ⟨[], by simp, by simp⟩
  | cons a as ih =>
    intro st
    obtain ⟨tail, htail, hall⟩ := ih (expStep dry now fails st a)
    rcases expStep_endRows dry now fails st a with h | ⟨h, _⟩
    · refine ⟨tail, ?_, ?_⟩
      · rw [List.foldl_cons, htail, h]
      · intro e he
        obtain ⟨r, hr, hre⟩ := hall e he
        exact ⟨r, List.mem_cons_of_mem _ hr, hre⟩
    · refine ⟨mkEndRowOf a :: tail, ?_, ?_⟩
      · rw [List.foldl_cons, htail, h, List.append_assoc]
        rfl
      · intro e he
        rcases List.mem_cons.mp he with he | he
        · exact ⟨a, List.mem_cons_self _ _, he⟩
        · obtain ⟨r, hr, hre⟩ := hall e he
          exact ⟨r, List.mem_cons_of_mem _ hr, hre⟩

/-- A duplicate-probe hit survives appending rows to the end table. -/
theorem probeOf_append (rows rows2 : List EndRow) (r : SrcRow)
    (h : probeOf rows r = true) : probeOf (rows ++ rows2) r = true := by
  unfold probeOf probeHit at h ⊢
  rw [List.any_append, h]
  rfl

/-- The row inserted for a source record matches that record's own
duplicate-probe key. -/
theorem probeOf_self (rows : List EndRow) (r : SrcRow) :
    probeOf (rows ++ [mkEndRowOf r]) r = true := by
  unfold probeOf probeHit mkEndRowOf
  simp [List.any_append]

/-- A duplicate-probe hit persists through the rest of the batch. -/
theorem foldl_probe_persist (dry : Bool) (now : Nat) (fails : Nat → Bool)
    (rows : List SrcRow) (st : ExpState) (r : SrcRow)
    (h : probeOf st.endRows r = true) :
    probeOf ((rows.foldl (expStep dry now fails) st).endRows) r = true := by
  obtain ⟨tail, htail, _⟩ := foldl_endRows_shape dry now fails rows st
  rw [htail]
  exact probeOf_append _ _ _ h

/-- After a non-dry run, every batch member that neither failed nor had
an empty badge hits the duplicate probe against the resulting end table:
it was either skipped because its key was already present, or inserted
(and then matches its own key). -/
theorem run1_probe (now : Nat) (fails : Nat → Bool) :
    ∀ (rows : List SrcRow) (st : ExpState) (r : SrcRow), r ∈ rows →
      fails r.id = false → rawUserOf r ≠ "" →
      probeOf ((rows.foldl (expStep false now fails) st).endRows) r = true := by
  intro rows
  induction rows with
  | nil => intro st r hr; cases hr
  | cons a as ih =>
    intro st r hr hf hraw
    rcases List.mem_cons.mp hr with he | he
    · subst he
      rw [List.foldl_cons]
      by_cases hp : probeOf st.endRows r = true
      · rcases expStep_endRows false now fails st r with h | ⟨h, _⟩
        · exact foldl_probe_persist false now fails as _ r (by rw [h]; exact hp)
        · exact foldl_probe_persist false now fails as _ r
            (by rw [h]; exact probeOf_append _ _ _ hp)
      · have h : (expStep false now fails st r).endRows = st.endRows ++ [mkEndRowOf r] := by
          simp [expStep, hf, hraw, hp]
        exact foldl_probe_persist false now fails as _ r (by rw [h]; exact probeOf_self _ _)
    · exact ih (expStep false now fails st a) r he hf hraw

/-- A batch in which every member fails, has an empty badge, probe-hits
the current end table, or runs dry, never changes the end table. -/
theorem run2_frozen (dry : Bool) (now : Nat) (fails : Nat → Bool) :
    ∀ (rows : List SrcRow) (st : ExpState),
      (∀ r ∈ rows, fails r.id = true ∨ rawUserOf r = "" ∨
        probeOf st.endRows r = true ∨ dry = true) →
      (rows.foldl (expStep dry now fails) st).endRows = st.endRows := by
  intro rows
  induction rows with
  | nil => intro st _; rfl
  | cons a as ih =>
    intro st h
    have hstep : (expStep dry now fails st a).endRows = st.endRows := by
      rcases expStep_endRows dry now fails st a with h0 | ⟨h0, hf, hraw, hp, hd⟩
      · exact h0
      · rcases h a (List.mem_cons_self _ _) with hc | hc | hc | hc
        · exact absurd hc (by simp [hf])
        · exact absurd hc hraw
        · exact absurd hc (by simp [hp])
        · exact absurd hc (by simp [hd])
    rw [List.foldl_cons]
    have h2 : ∀ r ∈ as, fails r.id = true ∨ rawUserOf r = "" ∨
        probeOf (expStep dry now fails st a).endRows r = true ∨ dry = true := by
      intro r hr
      rcases h r (List.mem_cons_of_mem _ hr) with hc | hc | hc | hc
      · exact Or.inl hc
      · exact Or.inr (Or.inl hc)
      · exact Or.inr (Or.inr (Or.inl (by rw [hstep]; exact hc)))
      · exact Or.inr (Or.inr (Or.inr hc))
    rw [ih (expStep dry now fails st a) h2, hstep]

/-- Every selected row is unexported. -/
theorem selectRows_unexported (src : List SrcRow) (batch : Nat) (cutoff : Option DT) :
    ∀ r ∈ selectRows src batch cutoff, r.exported = false := by
  intro r hr
  simp only [selectRows] at hr
  replace hr := List.take_subset _ _ hr
  have hq : r ∈ src.filter (fun r => r.exported == false) := by
    cases cutoff with
    | none => simpa using hr
    | some c => exact List.mem_of_mem_filter hr
  have := List.of_mem_filter hq
  simpa using this

/-- Claim C3.  The exporter is idempotent: the batch query only selects
unexported rows; re-running the exporter on the same source state leaves
the end table exactly as the first run left it (each previously handled
row now hits the duplicate probe); a probe hit inserts nothing, only
marks the source row exported and counts skipped_existing; and marking
sets exported=true with exported_at. -/
theorem C3_export_idempotent (src : List SrcRow) (end0 : List EndRow) (batch : Nat)
    (cutoff : Option DT) (dry : Bool) (now : Nat) (fails : Nat → Bool) :
    (∀ r ∈ selectRows src batch cutoff, r.exported = false) ∧
    ((export_attendance_direct src
        (export_attendance_direct src end0 batch cutoff dry now fails).endRows
        batch cutoff dry now fails).endRows
      = (export_attendance_direct src end0 batch cutoff dry now fails).endRows) ∧
    (∀ (st : ExpState) (r : SrcRow), fails r.id = false → rawUserOf r ≠ "" →
      probeOf st.endRows r = true →
      (expStep dry now fails st r).endRows = st.endRows ∧
      (expStep dry now fails st r).src = markExported now r.id st.src ∧
      (expStep dry now fails st r).counters.skipped_existing
        = st.counters.skipped_existing + 1) ∧
    (∀ (now2 i : Nat) (src2 : List SrcRow) (s : SrcRow), s ∈ src2 → s.id = i →
      { s with exported := true, exported_at := some now2 } ∈ markExported now2 i src2) := by
  refine ⟨selectRows_unexported src batch cutoff, ?_, ?_, ?_⟩
  · by_cases hsel : selectRows src batch cutoff = []
    · simp [export_attendance_direct, hsel]
    · simp only [export_attendance_direct, if_neg hsel]
      apply run2_frozen
      intro r hr
      by_cases hf : fails r.id = true
      · exact Or.inl hf
      · by_cases hraw : rawUserOf r = ""
        · exact Or.inr (Or.inl hraw)
        · cases hd : dry with
          | true => exact Or.inr (Or.inr (Or.inr rfl))
          | false =>
            subst hd
            refine Or.inr (Or.inr (Or.inl ?_))
            exact run1_probe now fails (selectRows src batch cutoff)
              { src := src, endRows := end0, counters := zeroCounters } r hr
              (by simpa using hf) hraw
  · intro st r hf hraw hp
    refine ⟨?_, ?_, ?_⟩ <;> simp [expStep, hf, hraw, hp]
  · intro now2 i src2 s hs hid
    have hmem := List.mem_map_of_mem
      (fun s : SrcRow =>
        if s.id = i then { s with exported := true, exported_at := some now2 } else s) hs
    simpa [markExported, hid] using hmem

/-- Claim C5, amended.  The badge is derived from the LEGACY user_id
first (Python truthiness of the raw value), falling back to
device_userid only when user_id is absent or the empty string; the
chosen value is stripped; an empty result skips the row and increments
skipped_empty_user; a non-empty result is the badge actually written. -/
theorem C5_badge_user_id_first (st : ExpState) (r : SrcRow) (dry : Bool) (now : Nat)
    (fails : Nat → Bool) :
    (truthyS r.user_id = true → rawUserOf r = pyStrip (r.user_id.getD "")) ∧
    (truthyS r.user_id = false → truthyS r.device_userid = true →
      rawUserOf r = pyStrip (r.device_userid.getD "")) ∧
    (truthyS r.user_id = false → truthyS r.device_userid = false → rawUserOf r = "") ∧
    (fails r.id = false → rawUserOf r = "" →
      expStep dry now fails st r
        = { st with counters :=
              { st.counters with
                skipped_empty_user := st.counters.skipped_empty_user + 1 } }) ∧
    (fails r.id = false → rawUserOf r ≠ "" → probeOf st.endRows r = false → dry = false →
      (expStep dry now fails st r).endRows = st.endRows ++ [mkEndRowOf r] ∧
      (mkEndRowOf r).badge = rawUserOf r) := by
  refine ⟨?_, ?_, ?_, ?_, ?_⟩
  · intro h
    simp [rawUserOf, h]
  · intro h1 h2
    simp [rawUserOf, h1, h2]
  · intro h1 h2
    simp [rawUserOf, h1, h2]
  · intro hf hr
    simp [expStep, hf, hr]
  · intro hf hr hp hd
    subst hd
    exact ⟨by simp [expStep, hf, hr, hp], rfl⟩

/-- Claim C6.  Every row this run writes into the end table carries
log_date and log_time computed from some selected source row's timestamp
minus 10 minutes, formatted %Y-%m-%d and %H:%M:%S; the duplicate probe
fires exactly on those same derived values; and the example from the
spec: 2025-01-10T09:00:00 exports as log_date 2025-01-10, log_time
08:50:00. -/
theorem C6_minus_ten_minutes (src : List SrcRow) (end0 : List EndRow) (batch : Nat)
    (cutoff : Option DT) (dry : Bool) (now : Nat) (fails : Nat → Bool) :
    (∀ e ∈ (export_attendance_direct src end0 batch cutoff dry now fails).endRows.drop
        end0.length,
      ∃ r ∈ selectRows src batch cutoff,
        e.log_date = fmtDate (subMinutes10 r.timestamp) ∧
        e.log_time = fmtTime (subMinutes10 r.timestamp)) ∧
    (∀ (st : ExpState) (r : SrcRow), fails r.id = false → rawUserOf r ≠ "" →
      ((expStep dry now fails st r).counters.skipped_existing
          = st.counters.skipped_existing + 1
        ↔ probeHit st.endRows (fmtDate (subMinutes10 r.timestamp)) (rawUserOf r)
            (fmtTime (subMinutes10 r.timestamp)) ("ZKT-FLASK-" ++ serialNoOf r) = true)) ∧
    fmtDate (subMinutes10 dtEx) = "2025-01-10" ∧
    fmtTime (subMinutes10 dtEx) = "08:50:00" := by
  refine ⟨?_, ?_, by decide, by decide⟩
  · intro e he
    by_cases hsel : selectRows src batch cutoff = []
    · simp [export_attendance_direct, hsel, List.drop_length] at he
    · simp only [export_attendance_direct, if_neg hsel] at he
      obtain ⟨tail, htail, hall⟩ :=
        foldl_endRows_shape dry now fails (selectRows src batch cutoff)
          { src := src, endRows := end0, counters := zeroCounters }
      rw [htail] at he
      rw [List.drop_left] at he
      obtain ⟨r, hr, hre⟩ := hall e he
      subst hre
      exact ⟨r, hr, rfl, rfl⟩
  · intro st r hf hraw
    constructor
    · intro heq
      by_cases hp : probeOf st.endRows r = true
      · exact hp
      · exfalso
        have hne : (expStep dry now fails st r).counters.skipped_existing
            = st.counters.skipped_existing := by
          cases hd : dry <;> simp [expStep, hf, hraw, hp, hd]
        rw [hne] at heq
        omega
    · intro hp
      have hp2 : probeOf st.endRows r = true := hp
      simp [expStep, hf, hraw, hp2]

/-- Claim C10.  Each selected row increments exactly one of the four
counters, so their sum equals the number of selected rows, which is at
most the batch size; an empty selection returns all-zero counters. -/
theorem C10_counters_partition (src : List SrcRow) (end0 : List EndRow) (batch : Nat)
    (cutoff : Option DT) (dry : Bool) (now : Nat) (fails : Nat → Bool) :
    (csum (export_attendance_direct src end0 batch cutoff dry now fails).counters
      = (selectRows src batch cutoff).length) ∧
    (selectRows src batch cutoff).length ≤ batch ∧
    (selectRows src batch cutoff = [] →
      (export_attendance_direct src end0 batch cutoff dry now fails).counters
        = zeroCounters) ∧
    (∀ (st : ExpState) (r : SrcRow),
      csum (expStep dry now fails st r).counters = csum st.counters + 1) := by
  have hstep : ∀ (st : ExpState) (r : SrcRow),
      csum (expStep dry now fails st r).counters = csum st.counters + 1 := by
    intro st r
    by_cases h1 : fails r.id = true <;> by_cases h2 : rawUserOf r = "" <;>
      by_cases h3 : probeOf st.endRows r = true <;> cases h4 : dry <;>
      simp [expStep, csum, h1, h2, h3, h4] <;> omega
  have hfold : ∀ (rows : List SrcRow) (st : ExpState),
      csum ((rows.foldl (expStep dry now fails) st).counters)
        = csum st.counters + rows.length := by
    intro rows
    induction rows with
    | nil => intro st; simp
    | cons a as ih =>
      intro st
      rw [List.foldl_cons, ih, hstep]
      simp [List.length_cons]
      omega
  refine ⟨?_, ?_, ?_, hstep⟩
  · by_cases hsel : selectRows src batch cutoff = []
    · simp [export_attendance_direct, hsel, csum, zeroCounters]
    · simp only [export_attendance_direct, if_neg hsel]
      rw [hfold]
      simp [csum, zeroCounters]
  · simp only [selectRows]
    exact le_trans (le_of_eq (List.length_take _ _)) (min_le_left _ _)
  · intro hsel
    simp [export_attendance_direct, hsel]

/-- Claim C7, amended.  Resolution tries the (userid, serial) roster row,
then the userid-only roster row, then the direct Badge lookup — but a
roster row with a non-empty badge_number COMMITS the resolution to the
Badge lookup of that badge_number, returning null when no such Badge
exists, without falling through to the later steps. -/
theorem C7_resolution_stops_at_roster (refs : List AccessUserInfoR) (badges : List BadgeR)
    (userid sn : Option String) :
    (get_badge_for_device_userid refs badges userid sn
      = amended_resolve refs badges userid sn) ∧
    (∀ (u snv : String) (ai : AccessUserInfoR), u ≠ "" → snv ≠ "" →
      refs.find? (fun a => a.USERID == u && a.sn == some snv) = some ai →
      ai.Badgenumber ≠ "" →
      get_badge_for_device_userid refs badges (some u) (some snv)
        = get_badge_by_badgenumber badges ai.Badgenumber) := by
  constructor
  · unfold get_badge_for_device_userid amended_resolve resolveRosterCommit
    cases userid with
    | none => rfl
    | some u =>
      by_cases hu : u = ""
      · simp [hu]
      · simp only [if_neg hu]
        cases sn with
        | none =>
          cases hfind : refs.find? (fun ai => ai.USERID == u) with
          | none => simp [hfind]
          | some ai =>
            by_cases hb : ai.Badgenumber = "" <;> simp [hfind, hb]
        | some snv =>
          by_cases hs : snv = ""
          · simp only [if_pos hs]
            cases hfind : refs.find? (fun ai => ai.USERID == u) with
            | none => simp [hfind]
            | some ai =>
              by_cases hb : ai.Badgenumber = "" <;> simp [hfind, hb]
          · simp only [if_neg hs]
            cases hfind2 : refs.find? (fun ai => ai.USERID == u && ai.sn == some snv) with
            | none =>
              cases hfind : refs.find? (fun ai => ai.USERID == u) with
              | none => simp [hfind2, hfind]
              | some ai =>
                by_cases hb : ai.Badgenumber = "" <;> simp [hfind2, hfind, hb]
            | some ai2 =>
              by_cases hb2 : ai2.Badgenumber = ""
              · simp only [hfind2, if_pos hb2]
                cases hfind : refs.find? (fun ai => ai.USERID == u) with
                | none => simp [hfind, hb2]
                | some ai =>
                  by_cases hb : ai.Badgenumber = "" <;> simp [hfind, hb, hb2]
              · simp [hfind2, hb2]
  · intro u snv ai hu hs hfind hb
    unfold get_badge_for_device_userid
    simp [hu, hs, hfind, hb]

/-- Witness for C2: in the raw-badge run the committed Access tuple was
among the staged tuples. -/
theorem C2_two_transactions_witness :
    tupEx ∈ (fetch_and_forward_for_device d0 [r1] [] [] [] cfgRaw ioOk).accessCommitted ∧
    tupEx ∈ (fetch_and_forward_for_device d0 [r1] [] [] [] cfgRaw ioOk).tuples :=
  ⟨by decide, (C2_two_transactions d0 [r1] [] [] [] cfgRaw ioOk).2.1 tupEx (by decide)⟩

/-- Witness for C4 at concrete polls: uniqueness is preserved over an
ingest into the empty store, a rerun against a store already holding the
record changes nothing, and the staged entry is new for its device. -/
theorem C4_event_uniqueness_witness :
    (([] : List FlaskEntry).map flaskKey).Nodup ∧
    ((fetch_and_forward_for_device d0 [r1] [] [] [] cfg0 ioOk).newStore.map flaskKey).Nodup ∧
    ((fetch_and_forward_for_device d0 [r1] [fe1] [] [] cfg0 ioOk).staged = [] ∧
      (fetch_and_forward_for_device d0 [r1] [fe1] [] [] cfg0 ioOk).newStore = [fe1]) ∧
    (fe1.device_id = d0.id ∧ fe1.record_id ∉ existingRids [] d0.id) :=
  ⟨by decide,
   (C4_event_uniqueness d0 [r1] [] [] [] cfg0 ioOk).1 (by decide),
   (C4_event_uniqueness d0 [r1] [fe1] [] [] cfg0 ioOk).2.1 (by
      intro r hr rid hrid
      have hr1 : r = r1 := by simpa using hr
      subst hr1
      have h1 : (1 : Nat) = rid := by simpa [r1] using hrid
      subst h1
      decide),
   (C4_event_uniqueness d0 [r1] [] [] [] cfg0 ioOk).2.2 fe1 (by decide)⟩

/-- Witness for C3 at a concrete state: a probe hit leaves the end table
unchanged, and marking stamps exported and exported_at. -/
theorem C3_export_idempotent_witness :
    (fails0 r5Ex.id = false ∧ rawUserOf r5Ex ≠ "" ∧
      probeOf [mkEndRowOf r5Ex] r5Ex = true ∧
      (expStep false 42 fails0
        { src := [r5Ex], endRows := [mkEndRowOf r5Ex], counters := zeroCounters }
        r5Ex).endRows = [mkEndRowOf r5Ex]) ∧
    ({ r5Ex with exported := true, exported_at := some 42 }
      ∈ markExported 42 r5Ex.id [r5Ex]) :=
  ⟨⟨by decide, by decide, by decide,
    ((C3_export_idempotent [r5Ex] [] 1500 none false 42 fails0).2.2.1
      { src := [r5Ex], endRows := [mkEndRowOf r5Ex], counters := zeroCounters } r5Ex
      (by decide) (by decide) (by decide)).1⟩,
   (C3_export_idempotent [r5Ex] [] 1500 none false 42 fails0).2.2.2 42 r5Ex.id [r5Ex] r5Ex
     (List.mem_cons_self _ _) rfl⟩

/-- Witness for C5 at a concrete row: the truthy user_id "B" is the
derived badge, and the row is inserted with that badge. -/
theorem C5_badge_user_id_first_witness :
    (truthyS r5Ex.user_id = true ∧ rawUserOf r5Ex = pyStrip (r5Ex.user_id.getD "")) ∧
    (fails0 r5Ex.id = false ∧ rawUserOf r5Ex ≠ "" ∧ probeOf st5Ex.endRows r5Ex = false ∧
      (expStep false 42 fails0 st5Ex r5Ex).endRows = st5Ex.endRows ++ [mkEndRowOf r5Ex]) :=
  ⟨⟨by decide, (C5_badge_user_id_first st5Ex r5Ex false 42 fails0).1 (by decide)⟩,
   ⟨by decide, by decide, by decide,
    ((C5_badge_user_id_first st5Ex r5Ex false 42 fails0).2.2.2.2 (by decide) (by decide)
      (by decide) rfl).1⟩⟩

/-- Witness for C6 at a concrete run: the single inserted row carries the
minus-ten-minutes log_date and log_time of a selected source row. -/
theorem C6_minus_ten_minutes_witness :
    mkEndRowOf r5Ex
        ∈ (export_attendance_direct [r5Ex] [] 1500 none false 42 fails0).endRows.drop
            (List.length ([] : List EndRow)) ∧
    ∃ r ∈ selectRows [r5Ex] 1500 none,
      (mkEndRowOf r5Ex).log_date = fmtDate (subMinutes10 r.timestamp) ∧
      (mkEndRowOf r5Ex).log_time = fmtTime (subMinutes10 r.timestamp) :=
  ⟨by decide,
   (C6_minus_ten_minutes [r5Ex] [] 1500 none false 42 fails0).1 (mkEndRowOf r5Ex)
     (by decide)⟩

/-- Witness for C7 at the concrete fixture: the (userid, serial) roster
row with badge_number "B9" commits the resolution to the Badge lookup of
"B9". -/
theorem C7_resolution_stops_at_roster_witness :
    get_badge_for_device_userid refsEx badgesEx (some "5") (some "S")
      = get_badge_by_badgenumber badgesEx "B9" :=
  (C7_resolution_stops_at_roster refsEx badgesEx (some "5") (some "S")).2 "5" "S"
    { USERID := "5", Badgenumber := "B9", sn := some "S" }
    (by decide) (by decide) (by decide) (by decide)

/-- Witness for C8: applying the fail-fast theorem at concrete inputs. -/
theorem C8_export_lock_fail_fast_witness :
    (export_job_worker true true "boom").status = "failed" ∧
    (export_job_worker true true "boom").invokedExporter = false :=
  ⟨(C8_export_lock_fail_fast true "boom").2.1, (C8_export_lock_fail_fast true "boom").1⟩

/-- Witness for C9: a record whose effective timestamp is inside the TTL
window survives pruning. -/
theorem C9_prune_effective_timestamp_witness :
    j9Ex ∈ prune_old_jobs 0 10 [j9Ex] :=
  (C9_prune_effective_timestamp 0 10 [j9Ex] j9Ex).mpr
    ⟨List.mem_cons_self _ _, by
      intro ts hts
      simp [effTs, j9Ex] at hts
      omega⟩

/-- Witness for C10: an all-exported source selects nothing and every
counter is zero. -/
theorem C10_counters_partition_witness :
    selectRows [rExported] 1500 none = [] ∧
    (export_attendance_direct [rExported] [] 1500 none false 42 fails0).counters
      = zeroCounters :=
  ⟨by decide,
   (C10_counters_partition [rExported] [] 1500 none false 42 fails0).2.2.1 (by decide)⟩

end AttendanceSystem
